import Mathlib

/-!
Shallow embedding of the season-activity planner (`src/app.py`): the fixed
season lookup table, password validation, the credential store and activity
store operations, and the per-request routing guard.  Persistence follows the
commit semantics of the source's database layer: an operation's store only
changes when the source reaches `db.session.commit()`; every error path
(caught exception, not-found abort) leaves the committed store untouched.
-/

namespace SeasonApp

/-- Season display information: one entry of the fixed `SEASON_DATA` table
(season name and display color; the `activities` list in the source constant
is always empty and never read, so it is omitted). -/
structure SeasonInfo where
  name : String
  color : String
deriving DecidableEq

/-- Embedding of the fixed dictionary `SEASON_DATA` (app.py lines 91-104):
months 1..12 map to a season name and color; any other key is absent (a
Python lookup raises `KeyError`, modelled as `none`). -/
def SEASON_DATA (month : Int) : Option SeasonInfo :=
  if month = 1 then some ⟨"冬", "#87CEEB"⟩
  else if month = 2 then some ⟨"冬", "#87CEEB"⟩
  else if month = 3 then some ⟨"春", "#90EE90"⟩
  else if month = 4 then some ⟨"春", "#90EE90"⟩
  else if month = 5 then some ⟨"春", "#90EE90"⟩
  else if month = 6 then some ⟨"夏", "#FFB6C1"⟩
  else if month = 7 then some ⟨"夏", "#FFB6C1"⟩
  else if month = 8 then some ⟨"夏", "#FFB6C1"⟩
  else if month = 9 then some ⟨"秋", "#DDA0DD"⟩
  else if month = 10 then some ⟨"秋", "#DDA0DD"⟩
  else if month = 11 then some ⟨"秋", "#DDA0DD"⟩
  else if month = 12 then some ⟨"冬", "#87CEEB"⟩
  else none

/-- Membership in the regex character class `[a-zA-Z0-9]`. -/
def isAsciiAlnum (c : Char) : Bool :=
  ('a' ≤ c && c ≤ 'z') || ('A' ≤ c && c ≤ 'Z') || ('0' ≤ c && c ≤ '9')

/-- Semantics of Python's `re.match(r'^[a-zA-Z0-9]+$', s)` (app.py line 45):
the pattern matches iff the whole string is one or more class characters,
where the non-MULTILINE `$` anchor also matches just before a single
trailing newline, so a string of the form `alnum+ ++ "\n"` matches too. -/
def matches_alnum_anchored (s : String) : Bool :=
  let body := if s.data.getLast? = some '\n' then s.data.dropLast else s.data
  !body.isEmpty && body.all isAsciiAlnum

/-- Embedding of `validate_password` (app.py lines 37-48): empty passwords,
passwords shorter than 8 characters, and passwords failing the anchored
alphanumeric regex are rejected with the source's message strings. -/
def validate_password (password : String) : Bool × String :=
  if password.isEmpty then (false, "パスワードを入力してください。")
  else if password.length < 8 then (false, "パスワードは8文字以上で入力してください。")
  else if !(matches_alnum_anchored password) then (false, "パスワードは半角英数のみで入力してください。")
  else (true, "")

/-- Embedding of the `User` model (app.py lines 51-63): integer primary key,
unique username and email, and a stored password hash (hashing itself is the
external `werkzeug.security` collaborator). -/
structure User where
  id : Nat
  username : String
  email : String
  password_hash : String
deriving DecidableEq

/-- Embedding of the `SeasonActivity` model (app.py lines 65-74): one owning
`user_id` foreign key, a month, the derived season label, an activity type,
a category, a title and a description. -/
structure SeasonActivity where
  id : Nat
  user_id : Nat
  month : Int
  season : String
  activity_type : String
  category : String
  title : String
  description : String
deriving DecidableEq

/-- The committed database state: the user table, the activity table, and the
two autoincrement counters of the integer primary keys. -/
structure Store where
  users : List User
  activities : List SeasonActivity
  next_user_id : Nat
  next_activity_id : Nat
deriving DecidableEq

/-- The empty database produced by `init_db` (app.py lines 77-88). -/
def store0 : Store := ⟨[], [], 1, 1⟩

/-- Outcome of the `register` route's POST branch (app.py lines 173-207).
Each error constructor corresponds to a flashed message and a re-rendered
form; `success` corresponds to commit plus auto-login. -/
inductive RegisterResult where
  | duplicateUsername
  | duplicateEmail
  | passwordInvalid (msg : String)
  | mismatch
  | success (u : User)
deriving DecidableEq

/-- Embedding of `register` (app.py lines 173-207): reject an existing
username, then an existing email, then an invalid password, then a mismatched
confirmation; otherwise create and commit the user.  `hash` is the salted
hash produced by the external `generate_password_hash` collaborator. -/
def register (s : Store) (username email password confirm hash : String) :
    RegisterResult × Store :=
  if s.users.any (fun u => u.username == username) then (.duplicateUsername, s)
  else if s.users.any (fun u => u.email == email) then (.duplicateEmail, s)
  else
    let v := validate_password password
    if !v.1 then (.passwordInvalid v.2, s)
    else if password ≠ confirm then (.mismatch, s)
    else
      let u : User := ⟨s.next_user_id, username, email, hash⟩
      (.success u,
        { s with users := s.users ++ [u], next_user_id := s.next_user_id + 1 })

/-- Outcome of an activity mutation route: `success m` is the commit followed
by the redirect to `month_detail m`; `notFound` is the `first_or_404` abort;
`serverError` is the caught-exception branch returning a 500 response (for
example the `KeyError` from `SEASON_DATA[month]` on an out-of-range month). -/
inductive ActivityResult where
  | success (redirectMonth : Int)
  | notFound
  | serverError
deriving DecidableEq

/-- Truth of the `success` constructor. -/
def ActivityResult.isSuccess : ActivityResult → Bool
  | .success _ => true
  | _ => false

/-- Embedding of the POST branch of `add_activity` (app.py lines 265-286):
look up the season for the submitted month (a `KeyError` on an out-of-range
month aborts before anything is committed), build the new row with the
server-computed season, and commit it. -/
def add_activity (s : Store) (userId : Nat) (month : Int)
    (activity_type category title description : String) :
    ActivityResult × Store :=
  match SEASON_DATA month with
  | none => (.serverError, s)
  | some info =>
      let a : SeasonActivity :=
        ⟨s.next_activity_id, userId, month, info.name,
          activity_type, category, title, description⟩
      (.success month,
        { s with activities := s.activities ++ [a],
                 next_activity_id := s.next_activity_id + 1 })

/-- Embedding of the POST branch of `edit_activity` (app.py lines 300-313):
`first_or_404` on `id = activity_id AND user_id = current_user.id`, then
overwrite the row's fields, recompute `season` from the new month (an
out-of-range month raises `KeyError`: the exception is caught, nothing is
committed, and the pending session changes are discarded), and commit. -/
def edit_activity (s : Store) (userId activityId : Nat) (month : Int)
    (activity_type category title description : String) :
    ActivityResult × Store :=
  match s.activities.find? (fun a => a.id == activityId && a.user_id == userId) with
  | none => (.notFound, s)
  | some _ =>
      match SEASON_DATA month with
      | none => (.serverError, s)
      | some info =>
          let update := fun (b : SeasonActivity) =>
            if b.id == activityId && b.user_id == userId then
              { b with month := month, activity_type := activity_type,
                       category := category, title := title,
                       description := description, season := info.name }
            else b
          (.success month, { s with activities := s.activities.map update })

/-- Embedding of `delete_activity` (app.py lines 327-334): `first_or_404` on
`id = activity_id AND user_id = current_user.id`, then delete the row, commit,
and redirect to the month the row belonged to. -/
def delete_activity (s : Store) (userId activityId : Nat) :
    ActivityResult × Store :=
  match s.activities.find? (fun a => a.id == activityId && a.user_id == userId) with
  | none => (.notFound, s)
  | some a =>
      (.success a.month,
        { s with activities :=
            s.activities.filter (fun b => !(b.id == activityId && b.user_id == userId)) })

/-- Outcome of `month_detail` (app.py lines 231-254): an out-of-range month
redirects to the index; otherwise the page shows the month's season
information and the user's activities of the month grouped into the four
fixed `activity_type` groups (一人, 友達, 家族, お年寄り). -/
inductive MonthDetailResult where
  | redirectHome
  | page (month : Nat) (seasonName seasonColor : String)
      (alone friends family elderly : List SeasonActivity)
deriving DecidableEq

/-- The rows shown for `userId` and `month`: the source's
`SeasonActivity.query.filter_by(month=month, user_id=current_user.id)`. -/
def userMonthRows (s : Store) (userId : Nat) (month : Int) : List SeasonActivity :=
  s.activities.filter (fun a => a.month == month && a.user_id == userId)

/-- Embedding of `month_detail` (app.py lines 231-254).  The route's `<int:month>`
converter only matches non-negative integers, so the path month is a `Nat`.
The grouping loop appends each fetched row whose `activity_type` is one of the
four dictionary keys to that key's list and skips every other row, which is
the per-key filter below. -/
def month_detail (s : Store) (userId month : Nat) : MonthDetailResult :=
  if month < 1 || month > 12 then .redirectHome
  else
    let acts := userMonthRows s userId (month : Int)
    let info := (SEASON_DATA (month : Int)).getD ⟨"", ""⟩
    .page month info.name info.color
      (acts.filter (fun a => a.activity_type == "一人"))
      (acts.filter (fun a => a.activity_type == "友達"))
      (acts.filter (fun a => a.activity_type == "家族"))
      (acts.filter (fun a => a.activity_type == "お年寄り"))

/-- The dashboard's per-month count (app.py lines 127-130):
`SeasonActivity.query.filter_by(month=month, user_id=current_user.id).count()`. -/
def countByMonth (s : Store) (userId : Nat) (month : Int) : Nat :=
  (userMonthRows s userId month).length

/-- Total number of rows displayed across the four groups of a month page
(zero on the redirect outcome, which displays no listing). -/
def displayedTotal : MonthDetailResult → Nat
  | .redirectHome => 0
  | .page _ _ _ alone friends family elderly =>
      alone.length + friends.length + family.length + elderly.length

/-- The configured `login_manager.login_message` (app.py line 25), flashed by
`flask_login` when an anonymous request hits a `login_required` route. -/
def login_message : String := "このページにアクセスするにはログインが必要です。"

/-- The HTTP routes of the application (app.py routing table). -/
inductive Route where
  | home
  | loginRoute
  | registerRoute
  | logoutRoute
  | monthRoute (month : Nat)
  | addRoute
  | editRoute (activityId : Nat)
  | deleteRoute (activityId : Nat)
deriving DecidableEq

/-- Whether a route requires the Authenticated state: every route except the
login and registration pages (the former via the explicit
`current_user.is_authenticated` check in `index`, the rest via
`login_required`). -/
def isProtected : Route → Bool
  | .loginRoute => false
  | .registerRoute => false
  | _ => true

/-- Response of a GET dispatch: the two redirects (a login redirect carries
the flashed notice when one is flashed), the rendered pages, and the
outcome-carrying wrappers for the routes that read or mutate the store. -/
inductive Response where
  | redirectLogin (notice : Option String)
  | redirectHome
  | renderLogin
  | renderRegister
  | dashboard (counts : List Nat)
  | monthView (r : MonthDetailResult)
  | addForm
  | editForm (found : Bool)
  | deleted (r : ActivityResult)
  | loggedOut
deriving DecidableEq

/-- Embedding of one GET request dispatch against the committed store.
`user?` is the authenticated user's id, or `none` in the Anonymous state.
Guard behavior per the source: `index` checks `current_user.is_authenticated`
itself and returns a bare `redirect(url_for('login'))` (no flash), while the
`login_required` routes redirect to the configured `login_view` and flash
`login_message` (the semantics of the `flask_login` collaborator under the
configuration of app.py lines 22-26); `login` and `register` redirect an
authenticated user to the index before reading the form. -/
def handle_get (user? : Option Nat) (s : Store) : Route → Response × Store
  | .home =>
      match user? with
      | none => (.redirectLogin none, s)
      | some uid =>
          (.dashboard ((List.range 12).map (fun i => countByMonth s uid (i + 1 : Nat))), s)
  | .loginRoute =>
      if user?.isSome then (.redirectHome, s) else (.renderLogin, s)
  | .registerRoute =>
      if user?.isSome then (.redirectHome, s) else (.renderRegister, s)
  | .logoutRoute =>
      match user? with
      | none => (.redirectLogin (some login_message), s)
      | some _ => (.loggedOut, s)
  | .monthRoute m =>
      match user? with
      | none => (.redirectLogin (some login_message), s)
      | some uid => (.monthView (month_detail s uid m), s)
  | .addRoute =>
      match user? with
      | none => (.redirectLogin (some login_message), s)
      | some _ => (.addForm, s)
  | .editRoute activityId =>
      match user? with
      | none => (.redirectLogin (some login_message), s)
      | some uid =>
          (.editForm
            ((s.activities.find? (fun a => a.id == activityId && a.user_id == uid)).isSome), s)
  | .deleteRoute activityId =>
      match user? with
      | none => (.redirectLogin (some login_message), s)
      | some uid =>
          let r := delete_activity s uid activityId
          (.deleted r.1, r.2)

/-- The invariant of §3 of the design on one persisted activity: its month is
in [1,12] and its season label is exactly the fixed table's entry for its
month. -/
def ActivityInv (a : SeasonActivity) : Prop :=
  1 ≤ a.month ∧ a.month ≤ 12 ∧ (SEASON_DATA a.month).map SeasonInfo.name = some a.season

/-- The store-wide invariant: every persisted activity satisfies `ActivityInv`. -/
def StoreInv (s : Store) : Prop :=
  ∀ a ∈ s.activities, ActivityInv a

/-- Whether an `activity_type` value is one of the four recognized groups. -/
def recognizedType (t : String) : Bool :=
  t == "一人" || t == "友達" || t == "家族" || t == "お年寄り"

/-- A month outside [1,12] has no entry in the season table. -/
lemma SEASON_DATA_eq_none (m : Int) (hm : ¬(1 ≤ m ∧ m ≤ 12)) :
    SEASON_DATA m = none := by
  have h1 : ¬ m = 1 := fun h => hm (by omega)
  have h2 : ¬ m = 2 := fun h => hm (by omega)
  have h3 : ¬ m = 3 := fun h => hm (by omega)
  have h4 : ¬ m = 4 := fun h => hm (by omega)
  have h5 : ¬ m = 5 := fun h => hm (by omega)
  have h6 : ¬ m = 6 := fun h => hm (by omega)
  have h7 : ¬ m = 7 := fun h => hm (by omega)
  have h8 : ¬ m = 8 := fun h => hm (by omega)
  have h9 : ¬ m = 9 := fun h => hm (by omega)
  have h10 : ¬ m = 10 := fun h => hm (by omega)
  have h11 : ¬ m = 11 := fun h => hm (by omega)
  have h12 : ¬ m = 12 := fun h => hm (by omega)
  simp only [SEASON_DATA, if_neg h1, if_neg h2, if_neg h3, if_neg h4, if_neg h5,
    if_neg h6, if_neg h7, if_neg h8, if_neg h9, if_neg h10, if_neg h11, if_neg h12]

/-- A month with an entry in the season table lies in [1,12]. -/
lemma SEASON_DATA_some_range (m : Int) (info : SeasonInfo)
    (h : SEASON_DATA m = some info) : 1 ≤ m ∧ m ≤ 12 := by
  by_contra hc
  rw [SEASON_DATA_eq_none m hc] at h
  exact Option.noConfusion h

/-- The ownership lookup of `edit_activity` and `delete_activity` finds
nothing exactly when the store holds no activity with the requested id owned
by the requesting user. -/
lemma find_owned_eq_none_iff (s : Store) (userA activityId : Nat) :
    s.activities.find? (fun a => a.id == activityId && a.user_id == userA) = none ↔
      ¬ ∃ a ∈ s.activities, a.id = activityId ∧ a.user_id = userA := by
  rw [List.find?_eq_none]
  simp

/-- C6: over months 1..12 the season lookup is the fixed table: months 1, 2
and 12 carry the winter label 冬, months 3-5 the spring label 春, months 6-8
the summer label 夏, and months 9-11 the autumn label 秋; the four labels are
pairwise distinct, so exactly four distinct labels occur; in particular
season(1) is the winter label and season(6) is the summer label. -/
theorem C6_season_table :
    ((SEASON_DATA 1).map SeasonInfo.name = some "冬" ∧
     (SEASON_DATA 2).map SeasonInfo.name = some "冬" ∧
     (SEASON_DATA 12).map SeasonInfo.name = some "冬" ∧
     (SEASON_DATA 3).map SeasonInfo.name = some "春" ∧
     (SEASON_DATA 4).map SeasonInfo.name = some "春" ∧
     (SEASON_DATA 5).map SeasonInfo.name = some "春" ∧
     (SEASON_DATA 6).map SeasonInfo.name = some "夏" ∧
     (SEASON_DATA 7).map SeasonInfo.name = some "夏" ∧
     (SEASON_DATA 8).map SeasonInfo.name = some "夏" ∧
     (SEASON_DATA 9).map SeasonInfo.name = some "秋" ∧
     (SEASON_DATA 10).map SeasonInfo.name = some "秋" ∧
     (SEASON_DATA 11).map SeasonInfo.name = some "秋") ∧
    ("冬" ≠ "春" ∧ "冬" ≠ "夏" ∧ "冬" ≠ "秋" ∧
     "春" ≠ "夏" ∧ "春" ≠ "秋" ∧ "夏" ≠ "秋") := by
  decide

/-- C9: an authenticated request to the month-detail path with a month value
outside [1,12] redirects to the home page, and no listing is produced (the
redirect outcome carries no listing). -/
theorem C9_out_of_range_month (s : Store) (userId month : Nat)
    (h : month < 1 ∨ 12 < month) :
    month_detail s userId month = .redirectHome := by
  unfold month_detail
  split
  · rfl
  · next hguard =>
      rcases h with h | h <;> simp_all

/-- C9 witness: month 13 on the empty store redirects home. -/
theorem C9_witness :
    (13 < 1 ∨ 12 < 13) ∧ month_detail store0 1 13 = .redirectHome :=
  ⟨Or.inr (by decide), C9_out_of_range_month store0 1 13 (Or.inr (by decide))⟩

/-- C3: whenever a create, update or delete operation ends in an error (a
not-found abort or the caught-exception 500 branch) rather than a successful
commit, the committed store is left exactly as it was: each create, update and
delete is all-or-nothing. -/
theorem C3_error_rolls_back (s : Store) (uid aid : Nat) (m : Int)
    (t c ti d : String) :
    ((add_activity s uid m t c ti d).1.isSuccess = false →
        (add_activity s uid m t c ti d).2 = s) ∧
    ((edit_activity s uid aid m t c ti d).1.isSuccess = false →
        (edit_activity s uid aid m t c ti d).2 = s) ∧
    ((delete_activity s uid aid).1.isSuccess = false →
        (delete_activity s uid aid).2 = s) := by
  refine ⟨?_, ?_, ?_⟩
  · unfold add_activity
    split <;> simp [ActivityResult.isSuccess]
  · unfold edit_activity
    split
    · simp
    · split <;> simp [ActivityResult.isSuccess]
  · unfold delete_activity
    split <;> simp [ActivityResult.isSuccess]

/-- C3 witness: adding with the out-of-range month 13 fails and leaves the
empty store unchanged. -/
theorem C3_witness :
    (add_activity store0 1 13 "友達" "外出" "花見" "").1.isSuccess = false ∧
    (add_activity store0 1 13 "友達" "外出" "花見" "").2 = store0 :=
  ⟨by decide, (C3_error_rolls_back store0 1 1 13 "友達" "外出" "花見" "").1 (by decide)⟩

/-- The acceptance branch of `validate_password` in terms of its three
checks. -/
lemma validate_password_accepted_iff (p : String) :
    (validate_password p).1 = true ↔
      (¬ p.isEmpty = true ∧ ¬ p.length < 8 ∧ matches_alnum_anchored p = true) := by
  unfold validate_password
  split_ifs with h1 h2 h3 <;> simp_all

/-- Characterization of the anchored regex match: the character list is a
nonempty all-alphanumeric list, or such a list followed by one newline. -/
lemma matches_alnum_anchored_iff (p : String) :
    matches_alnum_anchored p = true ↔
      ((p.data ≠ [] ∧ p.data.all isAsciiAlnum = true) ∨
        (p.data.getLast? = some '\n' ∧ p.data.dropLast ≠ [] ∧
          p.data.dropLast.all isAsciiAlnum = true)) := by
  simp only [matches_alnum_anchored]
  by_cases hc : p.data.getLast? = some '\n'
  · rw [if_pos hc]
    simp only [Bool.and_eq_true, Bool.not_eq_true', List.isEmpty_eq_false]
    constructor
    · rintro ⟨hne, hall⟩
      exact Or.inr ⟨hc, hne, hall⟩
    · rintro (⟨hne, hall⟩ | ⟨_, hne, hall⟩)
      · have hnl : ('\n' ∈ p.data) := List.mem_of_mem_getLast? (by exact hc)
        have := List.all_eq_true.mp hall _ hnl
        simp [isAsciiAlnum] at this
      · exact ⟨hne, hall⟩
  · rw [if_neg hc]
    simp only [Bool.and_eq_true, Bool.not_eq_true', List.isEmpty_eq_false]
    constructor
    · rintro ⟨hne, hall⟩
      exact Or.inl ⟨hne, hall⟩
    · rintro (⟨hne, hall⟩ | ⟨hlast, _, _⟩)
      · exact ⟨hne, hall⟩
      · exact absurd hlast hc

/-- C4 counterexample: the nine-character password made of "abcdefgh"
followed by a newline is accepted by `validate_password`, although its final
character is not an ASCII letter or digit, because the regex anchor `$` of
`re.match` also matches just before a single trailing newline; this refutes
the claimed only-if direction. -/
theorem C4_counterexample :
    (validate_password "abcdefgh\n").1 = true ∧
    "abcdefgh\n".data.all isAsciiAlnum = false := by
  decide

/-- C4 (amended): a password is accepted iff it is at least 8 characters long
and either every character is an ASCII letter or digit, or its final
character is a newline and every character before it is an ASCII letter or
digit; in particular "abc" is rejected, "abcdefgh" is accepted, and
"abc défg1" is rejected. -/
theorem C4_password_policy :
    (∀ p : String, (validate_password p).1 = true ↔
      (8 ≤ p.length ∧
        (p.data.all isAsciiAlnum = true ∨
          (p.data.getLast? = some '\n' ∧ p.data.dropLast.all isAsciiAlnum = true)))) ∧
    (validate_password "abc").1 = false ∧
    (validate_password "abcdefgh").1 = true ∧
    (validate_password "abc défg1").1 = false := by
  refine ⟨fun p => ?_, by decide, by decide, by decide⟩
  have hlen : p.length = p.data.length := rfl
  rw [validate_password_accepted_iff, matches_alnum_anchored_iff]
  constructor
  · rintro ⟨h1, h2, hd⟩
    refine ⟨by omega, ?_⟩
    rcases hd with ⟨_, hall⟩ | ⟨hlast, _, hall⟩
    · exact Or.inl hall
    · exact Or.inr ⟨hlast, hall⟩
  · rintro ⟨h8, hd⟩
    refine ⟨?_, by omega, ?_⟩
    · rw [String.isEmpty_iff p]
      intro he
      subst he
      simp at h8
    · rcases hd with hall | ⟨hlast, hall⟩
      · refine Or.inl ⟨?_, hall⟩
        intro he
        rw [he] at hlen
        simp at hlen
        omega
      · refine Or.inr ⟨hlast, ?_, hall⟩
        intro he
        have hlow := congrArg List.length he
        rw [List.length_dropLast] at hlow
        simp at hlow
        omega

/-- C1: for every user A and activity id, edit and delete yield a successful
(non-404) outcome exactly when the store holds an activity with that id owned
by A; when the id does not exist at all or the activity belongs to a
different user, both operations return the parameterless `notFound` outcome
and leave the store unchanged, so the two failure cases are literally the
same indistinguishable response. -/
theorem C1_ownership_hiding (s : Store) (userA activityId : Nat) (m : Int)
    (t c ti d : String) :
    ((edit_activity s userA activityId m t c ti d).1 = .notFound ∧
      (edit_activity s userA activityId m t c ti d).2 = s ∧
      (delete_activity s userA activityId).1 = .notFound ∧
      (delete_activity s userA activityId).2 = s) ↔
    ¬ ∃ a ∈ s.activities, a.id = activityId ∧ a.user_id = userA := by
  rw [← find_owned_eq_none_iff]
  unfold edit_activity delete_activity
  cases hfind : s.activities.find? (fun a => a.id == activityId && a.user_id == userA) with
  | none => simp
  | some a =>
      cases hsd : SEASON_DATA m with
      | none => simp
      | some info => simp

/-- C5: registering with a username that already exists in the store, or with
an email that already exists, returns a duplicate error and leaves the store
unchanged (no user is created); consequently, after a successful
registration, registering again with the same username fails with the
username-duplicate error, and registering again with the same email fails
with one of the two duplicate errors. -/
theorem C5_duplicate_registration (s : Store) (n e p c hsh : String) :
    (((∃ u ∈ s.users, u.username = n) ∨ (∃ u ∈ s.users, u.email = e)) →
      ((register s n e p c hsh).2 = s ∧
        ((register s n e p c hsh).1 = .duplicateUsername ∨
         (register s n e p c hsh).1 = .duplicateEmail))) ∧
    (∀ u s2, register s n e p c hsh = (.success u, s2) →
      (∀ e2 p2 c2 h2, (register s2 n e2 p2 c2 h2).1 = .duplicateUsername) ∧
      (∀ n2 p2 c2 h2, (register s2 n2 e p2 c2 h2).1 = .duplicateUsername ∨
                      (register s2 n2 e p2 c2 h2).1 = .duplicateEmail)) := by
  constructor
  · intro hd
    unfold register
    by_cases hu : s.users.any (fun u => u.username == n) = true
    · rw [if_pos hu]
      exact ⟨rfl, Or.inl rfl⟩
    · have he2 : s.users.any (fun u => u.email == e) = true := by
        rcases hd with ⟨u, hu2, heq⟩ | ⟨u, hu2, heq⟩
        · exact absurd (List.any_eq_true.mpr ⟨u, hu2, by simp [heq]⟩) hu
        · exact List.any_eq_true.mpr ⟨u, hu2, by simp [heq]⟩
      rw [if_neg hu, if_pos he2]
      exact ⟨rfl, Or.inr rfl⟩
  · intro u s2 hreg
    have husers : ∃ v ∈ s2.users, v.username = n ∧ v.email = e := by
      simp only [register] at hreg
      split_ifs at hreg with h1 h2 h3 h4
      · simp at hreg
      · simp at hreg
      · simp at hreg
      · simp at hreg
      · simp only [Prod.mk.injEq, RegisterResult.success.injEq] at hreg
        obtain ⟨_, hst⟩ := hreg
        refine ⟨⟨s.next_user_id, n, e, hsh⟩, ?_, rfl, rfl⟩
        rw [← hst]
        simp
    obtain ⟨v, hv, hvn, hve⟩ := husers
    constructor
    · intro e2 p2 c2 h2
      unfold register
      have hany : s2.users.any (fun w => w.username == n) = true :=
        List.any_eq_true.mpr ⟨v, hv, by simp [hvn]⟩
      rw [if_pos hany]
    · intro n2 p2 c2 h2
      unfold register
      by_cases hu2 : s2.users.any (fun w => w.username == n2) = true
      · rw [if_pos hu2]
        exact Or.inl rfl
      · have hany : s2.users.any (fun w => w.email == e) = true :=
          List.any_eq_true.mpr ⟨v, hv, by simp [hve]⟩
        rw [if_neg hu2, if_pos hany]
        exact Or.inr rfl

/-- C5 witness: after alice registers on the empty store, a second
registration with the username alice is rejected as a duplicate username. -/
theorem C5_witness :
    (register ⟨[⟨1, "alice", "a@x.com", "H"⟩], [], 2, 1⟩
        "alice" "b@y.com" "alice123" "alice123" "H").1 = .duplicateUsername := by
  have h := (C5_duplicate_registration store0 "alice" "a@x.com" "alice123" "alice123" "H").2
      ⟨1, "alice", "a@x.com", "H"⟩ ⟨[⟨1, "alice", "a@x.com", "H"⟩], [], 2, 1⟩ (by decide)
  exact h.1 "b@y.com" "alice123" "alice123" "H"

/-- C2: every persisted activity has exactly one owning user (its single
`user_id` field), and the store-wide invariant that each activity's month is
in [1,12] with its season equal to the fixed table's entry for that month is
preserved by create, update, delete and registration; moreover a successful
create appends exactly one row whose season is computed server-side from the
submitted month (no season input exists to trust), and a successful update
rewrites the targeted row's season to the table's entry for the newly
submitted month. -/
theorem C2_invariant_preserved (s : Store) (uid aid : Nat) (m : Int)
    (t c ti d n e p cf hsh : String) (hs : StoreInv s) :
    (∀ a : SeasonActivity, ∃! owner : Nat, a.user_id = owner) ∧
    StoreInv (add_activity s uid m t c ti d).2 ∧
    StoreInv (edit_activity s uid aid m t c ti d).2 ∧
    StoreInv (delete_activity s uid aid).2 ∧
    StoreInv (register s n e p cf hsh).2 ∧
    (∀ info, SEASON_DATA m = some info →
      (add_activity s uid m t c ti d).2.activities =
        s.activities ++ [⟨s.next_activity_id, uid, m, info.name, t, c, ti, d⟩]) ∧
    (∀ info, SEASON_DATA m = some info →
      ∀ b ∈ (edit_activity s uid aid m t c ti d).2.activities,
        b.id = aid → b.user_id = uid → (b.month = m ∧ b.season = info.name)) := by
  refine ⟨fun a => ⟨a.user_id, rfl, fun y hy => hy.symm⟩, ?_, ?_, ?_, ?_, ?_, ?_⟩
  · unfold add_activity
    cases hsd : SEASON_DATA m with
    | none => exact hs
    | some info =>
        intro a ha
        simp only [List.mem_append, List.mem_singleton] at ha
        rcases ha with ha | rfl
        · exact hs a ha
        · obtain ⟨h1, h2⟩ := SEASON_DATA_some_range m info hsd
          refine ⟨h1, h2, ?_⟩
          show (SEASON_DATA m).map SeasonInfo.name = some info.name
          rw [hsd]
          rfl
  · unfold edit_activity
    cases hfind : s.activities.find? (fun a => a.id == aid && a.user_id == uid) with
    | none => exact hs
    | some a0 =>
        cases hsd : SEASON_DATA m with
        | none => exact hs
        | some info =>
            intro b hb
            simp only [List.mem_map] at hb
            obtain ⟨b0, hb0, heq⟩ := hb
            subst heq
            by_cases hcond : (b0.id == aid && b0.user_id == uid) = true
            · rw [if_pos hcond]
              obtain ⟨h1, h2⟩ := SEASON_DATA_some_range m info hsd
              refine ⟨h1, h2, ?_⟩
              show (SEASON_DATA m).map SeasonInfo.name = some info.name
              rw [hsd]
              rfl
            · rw [if_neg hcond]
              exact hs b0 hb0
  · unfold delete_activity
    cases hfind : s.activities.find? (fun a => a.id == aid && a.user_id == uid) with
    | none => exact hs
    | some a0 =>
        intro b hb
        exact hs b (List.mem_of_mem_filter hb)
  · have hact : (register s n e p cf hsh).2.activities = s.activities := by
      simp only [register]
      split_ifs <;> rfl
    intro a ha
    rw [hact] at ha
    exact hs a ha
  · intro info hsd
    unfold add_activity
    rw [hsd]
  · intro info hsd b hb hid huid
    unfold edit_activity at hb
    cases hfind : s.activities.find? (fun a => a.id == aid && a.user_id == uid) with
    | none =>
        rw [hfind] at hb
        exfalso
        rw [List.find?_eq_none] at hfind
        have hcontra := hfind b hb
        simp [hid, huid] at hcontra
    | some a0 =>
        rw [hfind, hsd] at hb
        simp only [List.mem_map] at hb
        obtain ⟨b0, hb0, heq⟩ := hb
        subst heq
        by_cases hcond : (b0.id == aid && b0.user_id == uid) = true
        · rw [if_pos hcond] at hid huid ⊢
          exact ⟨rfl, rfl⟩
        · rw [if_neg hcond] at hid huid
          exact absurd (by simp [hid, huid]) hcond

/-- C2 witness: the empty store satisfies the invariant, and it is preserved
when an activity is added for month 6. -/
theorem C2_witness :
    StoreInv (add_activity store0 1 6 "友達" "外出" "花見" "").2 := by
  have h := C2_invariant_preserved store0 1 1 6 "友達" "外出" "花見" ""
      "alice" "a@x.com" "alice123" "alice123" "H"
      (by intro a ha; simp [store0] at ha)
  exact h.2.1

/-- Sample activity for month 6 with the recognized type 友達. -/
def act1 : SeasonActivity := ⟨1, 1, 6, "夏", "友達", "外出", "バーベキュー", ""⟩

/-- A store holding exactly `act1`. -/
def store1 : Store := ⟨[], [act1], 1, 2⟩

/-- The store after adding one activity with the unrecognized type 恋人. -/
def store2 : Store := (add_activity store0 1 6 "恋人" "外出" "映画" "").2

/-- C7: when the month-detail page is produced, each of its four groups holds
exactly the user's stored activities of that month whose `activity_type`
equals that group's label, so a recognized activity appears in its own group
and in no other, and every activity with an unrecognized `activity_type` is
silently dropped from all four groups. -/
theorem C7_grouped_by_type (s : Store) (uid month : Nat)
    (name color : String) (alone friends family elderly : List SeasonActivity)
    (hpage : month_detail s uid month =
      .page month name color alone friends family elderly) :
    (∀ a, a ∈ alone ↔
      (a ∈ s.activities ∧ a.month = (month : Int) ∧ a.user_id = uid ∧
        a.activity_type = "一人")) ∧
    (∀ a, a ∈ friends ↔
      (a ∈ s.activities ∧ a.month = (month : Int) ∧ a.user_id = uid ∧
        a.activity_type = "友達")) ∧
    (∀ a, a ∈ family ↔
      (a ∈ s.activities ∧ a.month = (month : Int) ∧ a.user_id = uid ∧
        a.activity_type = "家族")) ∧
    (∀ a, a ∈ elderly ↔
      (a ∈ s.activities ∧ a.month = (month : Int) ∧ a.user_id = uid ∧
        a.activity_type = "お年寄り")) ∧
    (∀ a, a ∈ s.activities → a.month = (month : Int) → a.user_id = uid →
      recognizedType a.activity_type = false →
      (a ∉ alone ∧ a ∉ friends ∧ a ∉ family ∧ a ∉ elderly)) := by
  simp only [month_detail] at hpage
  split_ifs at hpage with hguard
  case _ =>
    injection hpage with h0 hn hc h1 h2 h3 h4
    subst h1
    subst h2
    subst h3
    subst h4
    have hA : ∀ a, a ∈ (userMonthRows s uid (month : Int)).filter
        (fun a => a.activity_type == "一人") ↔
        (a ∈ s.activities ∧ a.month = (month : Int) ∧ a.user_id = uid ∧
          a.activity_type = "一人") := by
      intro a
      simp only [userMonthRows, List.mem_filter, Bool.and_eq_true, beq_iff_eq]
      tauto
    have hB : ∀ a, a ∈ (userMonthRows s uid (month : Int)).filter
        (fun a => a.activity_type == "友達") ↔
        (a ∈ s.activities ∧ a.month = (month : Int) ∧ a.user_id = uid ∧
          a.activity_type = "友達") := by
      intro a
      simp only [userMonthRows, List.mem_filter, Bool.and_eq_true, beq_iff_eq]
      tauto
    have hC : ∀ a, a ∈ (userMonthRows s uid (month : Int)).filter
        (fun a => a.activity_type == "家族") ↔
        (a ∈ s.activities ∧ a.month = (month : Int) ∧ a.user_id = uid ∧
          a.activity_type = "家族") := by
      intro a
      simp only [userMonthRows, List.mem_filter, Bool.and_eq_true, beq_iff_eq]
      tauto
    have hD : ∀ a, a ∈ (userMonthRows s uid (month : Int)).filter
        (fun a => a.activity_type == "お年寄り") ↔
        (a ∈ s.activities ∧ a.month = (month : Int) ∧ a.user_id = uid ∧
          a.activity_type = "お年寄り") := by
      intro a
      simp only [userMonthRows, List.mem_filter, Bool.and_eq_true, beq_iff_eq]
      tauto
    refine ⟨hA, hB, hC, hD, ?_⟩
    intro a ha hm hu hrec
    have hne1 : a.activity_type ≠ "一人" := by
      intro hx
      rw [hx] at hrec
      simp [recognizedType] at hrec
    have hne2 : a.activity_type ≠ "友達" := by
      intro hx
      rw [hx] at hrec
      simp [recognizedType] at hrec
    have hne3 : a.activity_type ≠ "家族" := by
      intro hx
      rw [hx] at hrec
      simp [recognizedType] at hrec
    have hne4 : a.activity_type ≠ "お年寄り" := by
      intro hx
      rw [hx] at hrec
      simp [recognizedType] at hrec
    refine ⟨?_, ?_, ?_, ?_⟩
    · intro hmem
      exact hne1 ((hA a).mp hmem).2.2.2
    · intro hmem
      exact hne2 ((hB a).mp hmem).2.2.2
    · intro hmem
      exact hne3 ((hC a).mp hmem).2.2.2
    · intro hmem
      exact hne4 ((hD a).mp hmem).2.2.2

/-- C7 witness: in the one-activity store, listing month 6 shows `act1` (type
友達) exactly in the friends group, and the membership characterizations of
all four groups hold. -/
theorem C7_witness :
    (∀ a, a ∈ ([] : List SeasonActivity) ↔
      (a ∈ store1.activities ∧ a.month = ((6 : Nat) : Int) ∧ a.user_id = 1 ∧
        a.activity_type = "一人")) ∧
    (∀ a, a ∈ [act1] ↔
      (a ∈ store1.activities ∧ a.month = ((6 : Nat) : Int) ∧ a.user_id = 1 ∧
        a.activity_type = "友達")) ∧
    (∀ a, a ∈ ([] : List SeasonActivity) ↔
      (a ∈ store1.activities ∧ a.month = ((6 : Nat) : Int) ∧ a.user_id = 1 ∧
        a.activity_type = "家族")) ∧
    (∀ a, a ∈ ([] : List SeasonActivity) ↔
      (a ∈ store1.activities ∧ a.month = ((6 : Nat) : Int) ∧ a.user_id = 1 ∧
        a.activity_type = "お年寄り")) ∧
    (∀ a, a ∈ store1.activities → a.month = ((6 : Nat) : Int) → a.user_id = 1 →
      recognizedType a.activity_type = false →
      (a ∉ ([] : List SeasonActivity) ∧ a ∉ [act1] ∧
        a ∉ ([] : List SeasonActivity) ∧ a ∉ ([] : List SeasonActivity))) :=
  C7_grouped_by_type store1 1 6 "夏" "#FFB6C1" [] [act1] [] [] (by decide)

/-- C8 counterexample: an anonymous GET of the protected home route responds
with a redirect to the login page carrying no notice at all, because the
source's `index` issues a bare redirect without flashing the configured
login message; this refutes the claim that every protected route's anonymous
redirect carries a please-log-in notice. -/
theorem C8_counterexample :
    (handle_get none store0 .home).1 = .redirectLogin none ∧
    ¬ ∃ msg : String, (handle_get none store0 .home).1 = .redirectLogin (some msg) := by
  constructor
  · rfl
  · rintro ⟨msg, hmsg⟩
    simp [handle_get] at hmsg

/-- C8 (amended): in the Anonymous state, every request to a protected route
(home, month detail, add, edit, delete, logout) responds with a redirect to
the login page and the store is untouched; the `login_required` routes flash
the configured please-log-in notice while the home route redirects without
any notice; in the Authenticated state, requests to the login and register
pages respond with a redirect to home, the store again untouched. -/
theorem C8_auth_guard (s : Store) (r : Route) (hr : isProtected r = true) :
    handle_get none s r =
      (.redirectLogin (if r = .home then none else some login_message), s) ∧
    (∀ uid : Nat, handle_get (some uid) s .loginRoute = (.redirectHome, s) ∧
      handle_get (some uid) s .registerRoute = (.redirectHome, s)) := by
  constructor
  · cases r <;> simp_all [handle_get, isProtected]
  · intro uid
    exact ⟨rfl, rfl⟩

/-- C8 witness: the month-6 route is protected, anonymous access to it
redirects to login with the notice, and an authenticated user visiting the
login or register page is redirected home. -/
theorem C8_witness :
    isProtected (Route.monthRoute 6) = true ∧
    (handle_get none store0 (.monthRoute 6) =
      (.redirectLogin
        (if Route.monthRoute 6 = .home then none else some login_message), store0) ∧
     (∀ uid : Nat, handle_get (some uid) store0 .loginRoute = (.redirectHome, store0) ∧
        handle_get (some uid) store0 .registerRoute = (.redirectHome, store0))) :=
  ⟨rfl, C8_auth_guard store0 (.monthRoute 6) rfl⟩

/-- The four group filters and the unrecognized remainder partition any list
of activities by length. -/
lemma filter_groups_length (l : List SeasonActivity) :
    (l.filter (fun a => a.activity_type == "一人")).length +
    (l.filter (fun a => a.activity_type == "友達")).length +
    (l.filter (fun a => a.activity_type == "家族")).length +
    (l.filter (fun a => a.activity_type == "お年寄り")).length +
    (l.filter (fun a => !(recognizedType a.activity_type))).length = l.length := by
  induction l with
  | nil => rfl
  | cons a l ih =>
      simp only [List.filter_cons]
      by_cases c1 : a.activity_type = "一人" <;>
        by_cases c2 : a.activity_type = "友達" <;>
          by_cases c3 : a.activity_type = "家族" <;>
            by_cases c4 : a.activity_type = "お年寄り" <;>
              simp_all [recognizedType] <;> omega

/-- C10: create accepts and persists an arbitrary `activity_type` string
with no write-time validation; for every in-range month the dashboard count
equals the number of rows displayed across the listing's four groups plus
the number of silently dropped rows with unrecognized `activity_type`; and
in the store obtained by adding one activity of the unrecognized type 恋人,
the month-6 dashboard count strictly exceeds the total displayed in the
month-6 listing. -/
theorem C10_count_exceeds_listing :
    (∀ (s : Store) (uid : Nat) (t c ti d : String),
      (add_activity s uid 6 t c ti d).1 = .success 6 ∧
      (add_activity s uid 6 t c ti d).2.activities =
        s.activities ++ [⟨s.next_activity_id, uid, 6, "夏", t, c, ti, d⟩]) ∧
    (∀ (s : Store) (uid month : Nat), 1 ≤ month → month ≤ 12 →
      displayedTotal (month_detail s uid month) +
        ((userMonthRows s uid (month : Int)).filter
          (fun a => !(recognizedType a.activity_type))).length =
        countByMonth s uid (month : Int)) ∧
    countByMonth store2 1 (6 : Int) > displayedTotal (month_detail store2 1 6) := by
  refine ⟨?_, ?_, by decide⟩
  · intro s uid t c ti d
    constructor <;> simp [add_activity, SEASON_DATA]
  · intro s uid month h1 h2
    have hguard : ¬((month < 1 || month > 12) = true) := by
      simp only [Bool.or_eq_true, decide_eq_true_eq]
      omega
    simp only [month_detail, if_neg hguard, displayedTotal, countByMonth]
    have hpart := filter_groups_length (userMonthRows s uid (month : Int))
    omega

/-- C10 witness: the bookkeeping identity instantiated in the store with one
unrecognized-type activity at month 6. -/
theorem C10_witness :
    displayedTotal (month_detail store2 1 6) +
      ((userMonthRows store2 1 ((6 : Nat) : Int)).filter
        (fun a => !(recognizedType a.activity_type))).length =
      countByMonth store2 1 ((6 : Nat) : Int) :=
  C10_count_exceeds_listing.2.1 store2 1 6 (by decide) (by decide)

end SeasonApp
